import Mathlib

/-!
Shallow embedding of cmd-nsmgr-proxy (main.go): the address resolver
(defaultURL, getPublishableURL), the listener start loop with its error
supervision (exitOnErr), the process-wide cancellation signal, the TLS
credential wiring, and a trace model of the sequential startup in main.
External collaborators (envconfig, the workload identity source, the
interface enumeration, listenonurl.GetPublicURL, the per-listener serve
outcome) enter as explicit oracle parameters; everything the repository
code itself decides is translated directly from main.go.
-/

/-- Model of the fields of net/url.URL that this program reads:
Scheme, Host (host with optional port, as Go stores it) and Path. -/
structure URL where
  scheme : String
  host : String
  path : String
deriving DecidableEq, Repr

/-- Scan of defaultURL (main.go 221-226): the for loop over listenOn,
returning the first entry whose Scheme equals the exact string "tcp". -/
def defaultURLScan : List URL → Option URL
  | [] => none
  | u :: rest => if u.scheme = "tcp" then some u else defaultURLScan rest

/-- defaultURL (main.go 220-228): first entry with scheme "tcp", else
the unconditional access listenOn[0].  On an empty list that final access
is out of bounds (a runtime panic in Go); the model returns none there. -/
def defaultURL (listenOn : List URL) : Option URL :=
  match defaultURLScan listenOn with
  | some u => some u
  | none => listenOn.head?

/-- getPublishableURL (main.go 211-219): pick the representative with
defaultURL, then enumerate interface addresses.  Enumeration failure is
logged as a warning and the representative is returned unmodified;
on success the external listenonurl.GetPublicURL rewrites it.  The
enumeration result and GetPublicURL are oracle parameters (external
collaborators).  Result: none models the panic of defaultURL on an empty
list; otherwise the returned URL together with the warnings logged. -/
def getPublishableURL (interfaceAddrs : Except String (List String))
    (getPublicURL : List String → URL → URL)
    (listenOn : List URL) : Option (URL × List String) :=
  match defaultURL listenOn with
  | none => none
  | some u =>
    match interfaceAddrs with
    | Except.error e => some (u, [e])
    | Except.ok addrs => some (getPublicURL addrs u, [])

/-- Outcome of one grpcutils.ListenAndServe call, as observed by
exitOnErr: syncErr means an error was already on the channel when the
non-blocking select polled it; asyncErr means the error arrives later,
on the channel watched by the background goroutine; ok means the
listener serves until cancellation. -/
inductive ListenOutcome where
  | ok : ListenOutcome
  | syncErr : String → ListenOutcome
  | asyncErr : String → ListenOutcome
deriving DecidableEq, Repr

/-- Whether the outcome is a synchronously observed error. -/
def ListenOutcome.isSync : ListenOutcome → Bool
  | ListenOutcome.syncErr _ => true
  | _ => false

/-- exitOnErr (main.go 196-209) for one listener: the select either finds
an error already present (log.Fatal: the process exits at once, first
component) or falls through to the default case and spawns a goroutine
that waits for a later error, logs it and calls cancel (second component:
the errors that background goroutine will eventually report). -/
def exitOnErr (o : ListenOutcome) : Option String × List String :=
  match o with
  | ListenOutcome.syncErr e => (some e, [])
  | ListenOutcome.asyncErr e => (none, [e])
  | ListenOutcome.ok => (none, [])

/-- Result of the listener start loop (main.go 187-190): the URLs passed
to ListenAndServe in order, the fatal error that stopped the loop via
log.Fatal if any, and the asynchronous errors the spawned watcher
goroutines will eventually deliver to cancel. -/
structure LoopResult where
  attempted : List URL
  fatal : Option String
  asyncWatched : List String
deriving DecidableEq, Repr

/-- The for loop of main.go 187-190 starting at index i: each iteration
calls ListenAndServe on listenOn[i] (the original configured URL) and
then exitOnErr; a synchronously observed error is log.Fatal, which
terminates the process and hence the loop. -/
def listenLoopFrom (outcomes : Nat → ListenOutcome) : List URL → Nat → LoopResult
  | [], _ => { attempted := [], fatal := none, asyncWatched := [] }
  | u :: rest, i =>
    match exitOnErr (outcomes i) with
    | (some e, _) => { attempted := [u], fatal := some e, asyncWatched := [] }
    | (none, ws) =>
      { attempted := u :: (listenLoopFrom outcomes rest (i + 1)).attempted,
        fatal := (listenLoopFrom outcomes rest (i + 1)).fatal,
        asyncWatched := ws ++ (listenLoopFrom outcomes rest (i + 1)).asyncWatched }

/-- State of the process-wide cancellation signal: the cancellable
context produced by signal.NotifyContext in main.go 75-82. -/
structure CancelState where
  cancelled : Bool
deriving DecidableEq, Repr

/-- The cancel function of the context, as the watcher goroutines of
exitOnErr invoke it (main.go 207).  Modelled from the documented Go
context semantics: calling cancel marks the context done; further calls
are no-ops and nothing is double-closed. -/
def cancelCtx (_ : CancelState) : CancelState :=
  { cancelled := true }

/-- n successive invocations of cancel on the shared context, as when
several listener watcher goroutines each call cancel. -/
def fireCancels (n : Nat) (s : CancelState) : CancelState :=
  match n with
  | 0 => s
  | m + 1 => fireCancels m (cancelCtx s)

/-- Every watcher goroutine that receives an error logs it and calls
cancel on the shared context (main.go 204-208). -/
def runWatchers (errs : List String) (s : CancelState) : CancelState :=
  errs.foldl (fun st _ => cancelCtx st) s

/-- Model of the tls.Config fields this program establishes.  Modelled
from the go-spiffe boundary: MTLSClientConfig and MTLSServerConfig
require and verify the peer certificate chain against the trust bundle
of the identity source (mutual authentication, no anonymous peer), and
install the given authorizer over the authenticated peer identity. -/
structure TLSConf where
  requireMutualAuth : Bool
  authorizeID : String → Bool
  minVersion : Nat

/-- crypto/tls VersionTLS12 constant (0x0303). -/
def VersionTLS12 : Nat := 771

/-- tlsconfig.AuthorizeAny: accepts every authenticated peer identity. -/
def AuthorizeAny : String → Bool := fun _ => true

/-- tlsconfig.MTLSClientConfig(source, source, authorizer), modelled at
the go-spiffe boundary: mutual authentication against the trust bundle,
the given authorizer, and the zero MinVersion of a fresh tls.Config. -/
def MTLSClientConfig (authorizer : String → Bool) : TLSConf :=
  { requireMutualAuth := true, authorizeID := authorizer, minVersion := 0 }

/-- tlsconfig.MTLSServerConfig(source, source, authorizer), modelled at
the go-spiffe boundary exactly as the client variant. -/
def MTLSServerConfig (authorizer : String → Bool) : TLSConf :=
  { requireMutualAuth := true, authorizeID := authorizer, minVersion := 0 }

/-- main.go 139-140: the client TLS config built in main. -/
def tlsClientConfig : TLSConf :=
  let c := MTLSClientConfig AuthorizeAny
  { c with minVersion := VersionTLS12 }

/-- main.go 141-142: the server TLS config built in main. -/
def tlsServerConfig : TLSConf :=
  let c := MTLSServerConfig AuthorizeAny
  { c with minVersion := VersionTLS12 }

/-- The configuration structure (main.go 60-71) as produced by
envconfig.Process; URL-typed and duration-typed fields are carried with
the Lean types of this embedding. -/
structure Config where
  listenOn : List URL
  name : String
  maxTokenLifetime : Nat
  registryServerPolicies : List String
  registryClientPolicies : List String
  mapIPFilePath : String
  registryProxyURL : Option URL
  registryURL : Option URL
  logLevel : String
  openTelemetryEndpoint : String
deriving DecidableEq, Repr

/-- Observable trace of one run of main (main.go 73-194): fatal carries
the message of the logrus.Fatal call that terminated the process with a
non-zero status, if any; panicked records the out-of-bounds access in
defaultURL; resolverArgs records the listen list passed to
getPublishableURL if that call is reached; publishedURL and warnings are
its result; listenAttempts are the URLs passed to ListenAndServe in
order; asyncWatched are the listener errors that will later reach
cancel. -/
structure MainTrace where
  fatal : Option String
  panicked : Bool
  resolverArgs : Option (List URL)
  publishedURL : Option URL
  warnings : List String
  listenAttempts : List URL
  asyncWatched : List String
deriving DecidableEq, Repr

/-- A trace that stopped at a fatal startup error before the resolver. -/
def fatalTrace (e : String) : MainTrace :=
  { fatal := some e, panicked := false, resolverArgs := none,
    publishedURL := none, warnings := [], listenAttempts := [],
    asyncWatched := [] }

/-- A concrete configuration with two listen URLs, matching the sample
scenario of the specification, used to evaluate the model. -/
def sampleConfig : Config :=
  { listenOn := [⟨"tcp", "0.0.0.0:5006", ""⟩, ⟨"unix", "", "/listen.on.socket"⟩],
    name := "nsmgr-proxy", maxTokenLifetime := 600,
    registryServerPolicies := [], registryClientPolicies := [],
    mapIPFilePath := "map-ip.yaml", registryProxyURL := none,
    registryURL := none, logLevel := "INFO",
    openTelemetryEndpoint := "otel-collector.observability.svc.cluster.local:4317" }

/-- A concrete configuration whose processed listen list is empty, as
environment processing may yield when the listen variable is set to a
blank string; main.go performs no emptiness validation on it. -/
def emptyListenConfig : Config :=
  { listenOn := [], name := "nsmgr-proxy", maxTokenLifetime := 600,
    registryServerPolicies := [], registryClientPolicies := [],
    mapIPFilePath := "map-ip.yaml", registryProxyURL := none,
    registryURL := none, logLevel := "INFO",
    openTelemetryEndpoint := "otel-collector.observability.svc.cluster.local:4317" }

/-- Sequential startup of main (main.go 73-194) over explicit oracles
for the external collaborators: envUsage is the result of
envconfig.Usage, envProcess of envconfig.Process, parseLevel of
logrus.ParseLevel on the configured level, x509Source of
workloadapi.NewX509Source, getSVID of source.GetX509SVID, interfaceAddrs
of net.InterfaceAddrs, getPublicURL is listenonurl.GetPublicURL, and
outcomes gives each ListenAndServe call its observed outcome.  Telemetry
setup, server assembly and chain registration have no effect on the
trace fields modelled here. -/
def mainRun (envUsage : Option String)
    (envProcess : Except String Config)
    (parseLevel : String → Bool)
    (x509Source : Except String Unit)
    (getSVID : Except String String)
    (interfaceAddrs : Except String (List String))
    (getPublicURL : List String → URL → URL)
    (outcomes : Nat → ListenOutcome) : MainTrace :=
  match envUsage with
  | some e => fatalTrace e
  | none =>
  match envProcess with
  | Except.error e => fatalTrace e
  | Except.ok config =>
  if parseLevel config.logLevel = false then
    fatalTrace ("invalid log level " ++ config.logLevel)
  else
  match x509Source with
  | Except.error e => fatalTrace ("error getting x509 source: " ++ e)
  | Except.ok _ =>
  match getSVID with
  | Except.error e => fatalTrace ("error getting x509 svid: " ++ e)
  | Except.ok _ =>
  match getPublishableURL interfaceAddrs getPublicURL config.listenOn with
  | none =>
    { fatal := none, panicked := true, resolverArgs := some config.listenOn,
      publishedURL := none, warnings := [], listenAttempts := [],
      asyncWatched := [] }
  | some (pub, warns) =>
    let r := listenLoopFrom outcomes config.listenOn 0
    { fatal := r.fatal, panicked := false,
      resolverArgs := some config.listenOn, publishedURL := some pub,
      warnings := warns, listenAttempts := r.attempted,
      asyncWatched := r.asyncWatched }

/-! ## Properties of the address resolver -/

theorem defaultURLScan_some (l : List URL) (u : URL)
    (h : defaultURLScan l = some u) :
    u.scheme = "tcp" ∧
      ∃ pre suf, l = pre ++ u :: suf ∧ ∀ w ∈ pre, w.scheme ≠ "tcp" := by
  induction l with
  | nil => simp [defaultURLScan] at h
  | cons v rest ih =>
    by_cases hv : v.scheme = "tcp"
    · simp only [defaultURLScan, if_pos hv, Option.some.injEq] at h
      subst h
      exact ⟨hv, [], rest, rfl, by simp⟩
    · simp only [defaultURLScan, if_neg hv] at h
      obtain ⟨ht, pre, suf, heq, hpre⟩ := ih h
      refine ⟨ht, v :: pre, suf, by simp [heq], ?_⟩
      intro w hw
      rcases List.mem_cons.mp hw with hw | hw
      · rw [hw]; exact hv
      · exact hpre w hw

theorem defaultURLScan_none (l : List URL)
    (h : ∀ u ∈ l, u.scheme ≠ "tcp") : defaultURLScan l = none := by
  induction l with
  | nil => rfl
  | cons v rest ih =>
    have hv : v.scheme ≠ "tcp" := h v (by simp)
    simp only [defaultURLScan, if_neg hv]
    exact ih fun u hu => h u (by simp [hu])

theorem defaultURLScan_append (pre : List URL) (u : URL) (suf : List URL)
    (hu : u.scheme = "tcp") (hpre : ∀ w ∈ pre, w.scheme ≠ "tcp") :
    defaultURLScan (pre ++ u :: suf) = some u := by
  induction pre with
  | nil => simp [defaultURLScan, hu]
  | cons v pr ih =>
    have hv : v.scheme ≠ "tcp" := hpre v (by simp)
    simp only [List.cons_append, defaultURLScan, if_neg hv]
    exact ih fun w hw => hpre w (by simp [hw])

theorem defaultURL_isSome (l : List URL) (h : l ≠ []) :
    ∃ u, defaultURL l = some u := by
  cases hs : defaultURLScan l with
  | some u => exact ⟨u, by simp [defaultURL, hs]⟩
  | none =>
    cases l with
    | nil => exact absurd rfl h
    | cons v rest => exact ⟨v, by simp [defaultURL, hs]⟩

/-- Claim C2: for a non-empty list whose first network-routable (tcp)
entry is u (the list decomposes as pre ++ u :: suf with no tcp entry in
pre), defaultURL selects exactly u; for a non-empty list with no tcp
entry, defaultURL selects the first entry of the list. -/
theorem defaultURL_representative_selection (l pre suf : List URL) (u : URL) :
    (l = pre ++ u :: suf → u.scheme = "tcp" →
      (∀ w ∈ pre, w.scheme ≠ "tcp") → defaultURL l = some u) ∧
    ((∀ w ∈ l, w.scheme ≠ "tcp") → l ≠ [] → defaultURL l = l.head?) := by
  constructor
  · intro hl hu hpre
    rw [hl]
    simp [defaultURL, defaultURLScan_append pre u suf hu hpre]
  · intro h _
    simp [defaultURL, defaultURLScan_none l h]

/-- Witness for C2: on [unix, tcp(0.0.0.0:5006), tcp(1.1.1.1:80)] the
resolver selects the first tcp entry. -/
theorem defaultURL_representative_selection_witness :
    defaultURL [⟨"unix", "", "/listen.on.socket"⟩, ⟨"tcp", "0.0.0.0:5006", ""⟩,
        ⟨"tcp", "1.1.1.1:80", ""⟩] = some ⟨"tcp", "0.0.0.0:5006", ""⟩ :=
  (defaultURL_representative_selection
      [⟨"unix", "", "/listen.on.socket"⟩, ⟨"tcp", "0.0.0.0:5006", ""⟩,
        ⟨"tcp", "1.1.1.1:80", ""⟩]
      [⟨"unix", "", "/listen.on.socket"⟩] [⟨"tcp", "1.1.1.1:80", ""⟩]
      ⟨"tcp", "0.0.0.0:5006", ""⟩).1 rfl rfl (by decide)

/-- Claim C10: the network-routable test is exact string equality of the
scheme with tcp: any list all of whose schemes differ from the exact
string tcp (such as tcp4, tcp6, udp or uppercase TCP) falls back to the
first entry, and the scan selects an entry only if its scheme equals
tcp. -/
theorem defaultURL_tcp_exact_string_match (l : List URL) :
    ((∀ u ∈ l, u.scheme ≠ "tcp") → l ≠ [] → defaultURL l = l.head?) ∧
    (∀ u, defaultURLScan l = some u → u.scheme = "tcp") := by
  constructor
  · intro h _
    simp [defaultURL, defaultURLScan_none l h]
  · intro u hu
    exact (defaultURLScan_some l u hu).1

/-- Witness for C10: a list with schemes tcp4, tcp6, udp and TCP has no
exact tcp match, so the first entry is selected. -/
theorem defaultURL_tcp_exact_string_match_witness :
    defaultURL [⟨"tcp4", "h:1", ""⟩, ⟨"tcp6", "h:2", ""⟩, ⟨"udp", "h:3", ""⟩,
        ⟨"TCP", "h:4", ""⟩] =
      ([⟨"tcp4", "h:1", ""⟩, ⟨"tcp6", "h:2", ""⟩, ⟨"udp", "h:3", ""⟩,
        ⟨"TCP", "h:4", ""⟩] : List URL).head? :=
  (defaultURL_tcp_exact_string_match
      [⟨"tcp4", "h:1", ""⟩, ⟨"tcp6", "h:2", ""⟩, ⟨"udp", "h:3", ""⟩,
        ⟨"TCP", "h:4", ""⟩]).1 (by decide) (by decide)

/-! ## Properties of the listener start loop -/

theorem listenLoopFrom_no_sync (outcomes : Nat → ListenOutcome) :
    ∀ (specs : List URL) (k : Nat),
      (∀ j, j < specs.length → (outcomes (k + j)).isSync = false) →
      (listenLoopFrom outcomes specs k).attempted = specs ∧
        (listenLoopFrom outcomes specs k).fatal = none := by
  intro specs
  induction specs with
  | nil => intro k _; exact ⟨rfl, rfl⟩
  | cons u rest ih =>
    intro k h
    have h0 : (outcomes k).isSync = false := by
      have hh := h 0 (by simp)
      simpa using hh
    have hrest : ∀ j, j < rest.length → (outcomes (k + 1 + j)).isSync = false := by
      intro j hj
      have hh := h (j + 1) (by simpa using Nat.succ_lt_succ hj)
      have heq : k + (j + 1) = k + 1 + j := by omega
      rwa [heq] at hh
    obtain ⟨ha, hf⟩ := ih (k + 1) hrest
    cases ho : outcomes k with
    | ok => simp [listenLoopFrom, exitOnErr, ho, ha, hf]
    | syncErr e => rw [ho] at h0; simp [ListenOutcome.isSync] at h0
    | asyncErr e => simp [listenLoopFrom, exitOnErr, ho, ha, hf]

theorem listenLoopFrom_first_sync (outcomes : Nat → ListenOutcome) :
    ∀ (specs : List URL) (k i : Nat) (e : String),
      i < specs.length →
      (∀ j, j < i → (outcomes (k + j)).isSync = false) →
      outcomes (k + i) = ListenOutcome.syncErr e →
      (listenLoopFrom outcomes specs k).fatal = some e ∧
        (listenLoopFrom outcomes specs k).attempted = specs.take (i + 1) := by
  intro specs
  induction specs with
  | nil => intro k i e hi _ _; simp at hi
  | cons u rest ih =>
    intro k i e hi hfirst hsync
    cases i with
    | zero =>
      have hk : outcomes k = ListenOutcome.syncErr e := by simpa using hsync
      simp [listenLoopFrom, exitOnErr, hk]
    | succ m =>
      have h0 : (outcomes k).isSync = false := by
        have hh := hfirst 0 (Nat.succ_pos m)
        simpa using hh
      have hrest : ∀ j, j < m → (outcomes (k + 1 + j)).isSync = false := by
        intro j hj
        have hh := hfirst (j + 1) (Nat.succ_lt_succ hj)
        have heq : k + (j + 1) = k + 1 + j := by omega
        rwa [heq] at hh
      have hsync2 : outcomes (k + 1 + m) = ListenOutcome.syncErr e := by
        have heq : k + (m + 1) = k + 1 + m := by omega
        rwa [heq] at hsync
      have hm : m < rest.length := by
        simpa using Nat.lt_of_succ_lt_succ hi
      obtain ⟨hf, ha⟩ := ih (k + 1) m e hm hrest hsync2
      cases ho : outcomes k with
      | ok => simp [listenLoopFrom, exitOnErr, ho, hf, ha]
      | syncErr e2 => rw [ho] at h0; simp [ListenOutcome.isSync] at h0
      | asyncErr e2 => simp [listenLoopFrom, exitOnErr, ho, hf, ha]

/-- Counterexample to claim C1 as stated: with three listen specs where
the first listener has its error already on the channel at the
start-time poll, exitOnErr reaches log.Fatal and the process exits
inside the loop: only one ListenAndServe attempt occurs, not three. -/
theorem not_all_listeners_attempted_on_sync_failure :
    (listenLoopFrom
        (fun i => if i = 0 then ListenOutcome.syncErr ("listen failed") else ListenOutcome.ok)
        [⟨"tcp", "h1:5001", ""⟩, ⟨"tcp", "h2:5002", ""⟩, ⟨"unix", "", "/s"⟩]
        0).attempted.length = 1 ∧
    ([⟨"tcp", "h1:5001", ""⟩, ⟨"tcp", "h2:5002", ""⟩,
        ⟨"unix", "", "/s"⟩] : List URL).length = 3 := by
  constructor <;> rfl

/-- Claim C1 as amended: every configured listener is attempted provided
no listener failure is observed synchronously at its start-time poll;
failures delivered asynchronously never stop the start loop, and in that
case no log.Fatal occurs during the loop. -/
theorem all_listeners_attempted_without_sync_failure
    (outcomes : Nat → ListenOutcome) (specs : List URL)
    (h : ∀ i, i < specs.length → (outcomes i).isSync = false) :
    (listenLoopFrom outcomes specs 0).attempted = specs ∧
      (listenLoopFrom outcomes specs 0).fatal = none := by
  refine listenLoopFrom_no_sync outcomes specs 0 ?_
  intro j hj
  simpa using h j hj

/-- Witness for the amended C1: three specs, the first failing
asynchronously, still yield three start attempts and no fatal exit. -/
theorem all_listeners_attempted_without_sync_failure_witness :
    (listenLoopFrom
        (fun i => if i = 0 then ListenOutcome.asyncErr ("conn reset") else ListenOutcome.ok)
        [⟨"tcp", "h1:5001", ""⟩, ⟨"tcp", "h2:5002", ""⟩, ⟨"unix", "", "/s"⟩]
        0).attempted =
      [⟨"tcp", "h1:5001", ""⟩, ⟨"tcp", "h2:5002", ""⟩, ⟨"unix", "", "/s"⟩] ∧
    (listenLoopFrom
        (fun i => if i = 0 then ListenOutcome.asyncErr ("conn reset") else ListenOutcome.ok)
        [⟨"tcp", "h1:5001", ""⟩, ⟨"tcp", "h2:5002", ""⟩, ⟨"unix", "", "/s"⟩]
        0).fatal = none :=
  all_listeners_attempted_without_sync_failure _ _ (by decide)

/-- Claim C4: a listener failure observed synchronously at start time
(its error already on the channel when exitOnErr polls, no earlier
listener having failed synchronously) is propagated immediately: the
loop records that error as fatal via log.Fatal and stops right after
that listener, so the process does not continue a silent partial
startup. -/
theorem sync_failure_propagated_immediately
    (outcomes : Nat → ListenOutcome) (specs : List URL) (i : Nat) (e : String)
    (hi : i < specs.length)
    (hfirst : ∀ j, j < i → (outcomes j).isSync = false)
    (hsync : outcomes i = ListenOutcome.syncErr e) :
    (listenLoopFrom outcomes specs 0).fatal = some e ∧
      (listenLoopFrom outcomes specs 0).attempted = specs.take (i + 1) := by
  refine listenLoopFrom_first_sync outcomes specs 0 i e hi ?_ ?_
  · intro j hj
    simpa using hfirst j hj
  · simpa using hsync

/-- Witness for C4: the first of two listeners failing synchronously
makes the loop fatal at once with only that attempt made. -/
theorem sync_failure_propagated_immediately_witness :
    (listenLoopFrom (fun _ => ListenOutcome.syncErr ("bind: already in use"))
        [⟨"tcp", "h1:5001", ""⟩, ⟨"unix", "", "/s"⟩] 0).fatal =
      some "bind: already in use" ∧
    (listenLoopFrom (fun _ => ListenOutcome.syncErr ("bind: already in use"))
        [⟨"tcp", "h1:5001", ""⟩, ⟨"unix", "", "/s"⟩] 0).attempted =
      ([⟨"tcp", "h1:5001", ""⟩, ⟨"unix", "", "/s"⟩] : List URL).take 1 :=
  sync_failure_propagated_immediately _ _ 0 _ (by decide) (by decide) rfl

/-! ## Properties of the cancellation signal -/

theorem fireCancels_succ (n : Nat) (s : CancelState) :
    fireCancels (n + 1) s = cancelCtx s := by
  induction n generalizing s with
  | zero => rfl
  | succ m ih =>
    have h1 : fireCancels (m + 1 + 1) s = fireCancels (m + 1) (cancelCtx s) := rfl
    rw [h1, ih]
    rfl

theorem runWatchers_after_cancel (errs : List String) :
    runWatchers errs { cancelled := true } = { cancelled := true } := by
  induction errs with
  | nil => rfl
  | cons e es ih => simpa [runWatchers, cancelCtx] using ih

/-- Claim C3: the process-wide cancellation signal is idempotent and
monotonic: a second or later trigger is a no-op (no double effect, the
modelled cancel is a total function so nothing panics or double-closes),
once cancelled the signal stays cancelled, and whatever number of
listener watcher goroutines fire cancel, the resulting state is that of
exactly one cancellation. -/
theorem cancellation_single_shot :
    (∀ s, cancelCtx (cancelCtx s) = cancelCtx s) ∧
    (∀ s, s.cancelled = true → cancelCtx s = s) ∧
    (∀ s, (cancelCtx s).cancelled = true) ∧
    (∀ n s, 1 ≤ n → fireCancels n s = cancelCtx s) ∧
    (∀ errs s, errs ≠ [] → runWatchers errs s = cancelCtx s) := by
  refine ⟨fun s => rfl, ?_, fun s => rfl, ?_, ?_⟩
  · intro s h
    cases s with
    | mk c =>
      have hc : c = true := by simpa using h
      rw [hc]
      rfl
  · intro n s h
    cases n with
    | zero => exact absurd h (by omega)
    | succ m => exact fireCancels_succ m s
  · intro errs s h
    cases errs with
    | nil => exact absurd rfl h
    | cons e es =>
      have h1 : runWatchers (e :: es) s = runWatchers es { cancelled := true } := rfl
      rw [h1, runWatchers_after_cancel]
      rfl

/-- Witness for C3: three cancel invocations, and two watcher goroutines
each firing cancel, both leave the state of a single cancellation. -/
theorem cancellation_single_shot_witness :
    fireCancels 3 { cancelled := false } = cancelCtx { cancelled := false } ∧
    runWatchers ["err one", "err two"] { cancelled := false } =
      cancelCtx { cancelled := false } :=
  ⟨cancellation_single_shot.2.2.2.1 3 { cancelled := false } (by decide),
   cancellation_single_shot.2.2.2.2 ["err one", "err two"] { cancelled := false }
     (by decide)⟩

/-! ## Properties of the TLS credential wiring -/

/-- Claim C6: both the client-side and the server-side TLS configs built
in main require mutual authentication against the trust bundle of the
identity source (so no anonymous peer is accepted), accept every
authenticated peer identity, and set the minimum transport-security
version to TLS 1.2. -/
theorem tls_configs_mtls_any_identity_tls12 :
    tlsClientConfig.requireMutualAuth = true ∧
    tlsServerConfig.requireMutualAuth = true ∧
    tlsClientConfig.minVersion = VersionTLS12 ∧
    tlsServerConfig.minVersion = VersionTLS12 ∧
    (∀ id, tlsClientConfig.authorizeID id = true) ∧
    (∀ id, tlsServerConfig.authorizeID id = true) :=
  ⟨rfl, rfl, rfl, rfl, fun _ => rfl, fun _ => rfl⟩

/-- Witness for C6: a concrete peer identity is accepted by both
configs. -/
theorem tls_configs_mtls_any_identity_tls12_witness :
    tlsClientConfig.authorizeID ("spiffe://example.org/workload") = true ∧
    tlsServerConfig.authorizeID ("spiffe://example.org/workload") = true :=
  ⟨tls_configs_mtls_any_identity_tls12.2.2.2.2.1 "spiffe://example.org/workload",
   tls_configs_mtls_any_identity_tls12.2.2.2.2.2 "spiffe://example.org/workload"⟩

/-! ## Properties of the startup sequence of main -/

theorem mainRun_interface_independent
    (eu : Option String) (c : Except String Config) (p : String → Bool)
    (x : Except String Unit) (s : Except String String)
    (a1 a2 : Except String (List String))
    (g1 g2 : List String → URL → URL) (o : Nat → ListenOutcome) :
    (mainRun eu c p x s a1 g1 o).fatal = (mainRun eu c p x s a2 g2 o).fatal ∧
    (mainRun eu c p x s a1 g1 o).panicked = (mainRun eu c p x s a2 g2 o).panicked ∧
    (mainRun eu c p x s a1 g1 o).resolverArgs =
      (mainRun eu c p x s a2 g2 o).resolverArgs ∧
    (mainRun eu c p x s a1 g1 o).listenAttempts =
      (mainRun eu c p x s a2 g2 o).listenAttempts ∧
    (mainRun eu c p x s a1 g1 o).asyncWatched =
      (mainRun eu c p x s a2 g2 o).asyncWatched := by
  cases eu with
  | some e => simp [mainRun]
  | none =>
    cases c with
    | error e => simp [mainRun]
    | ok cfg =>
      cases hp : p cfg.logLevel with
      | false => simp [mainRun, hp]
      | true =>
        cases x with
        | error e => simp [mainRun, hp]
        | ok u =>
          cases s with
          | error e => simp [mainRun, hp]
          | ok sv =>
            cases hd : defaultURL cfg.listenOn with
            | none =>
              cases a1 <;> cases a2 <;>
                simp [mainRun, hp, getPublishableURL, hd]
            | some v =>
              cases a1 <;> cases a2 <;>
                simp [mainRun, hp, getPublishableURL, hd]

/-- Claim C5: when interface enumeration fails, getPublishableURL
returns the selected representative unmodified together with the
enumeration error as a warning, and the failure is non-fatal: the fatal
state and the listener attempts of the whole run are the same as under
any successful enumeration. -/
theorem enum_failure_warns_returns_unmodified
    (l : List URL) (g : List String → URL → URL) (e : String) (u : URL)
    (h : defaultURL l = some u) :
    getPublishableURL (Except.error e) g l = some (u, [e]) ∧
    (∀ eu c p x s o a2 g2,
      (mainRun eu c p x s (Except.error e) g o).fatal =
          (mainRun eu c p x s a2 g2 o).fatal ∧
        (mainRun eu c p x s (Except.error e) g o).listenAttempts =
          (mainRun eu c p x s a2 g2 o).listenAttempts) := by
  constructor
  · simp [getPublishableURL, h]
  · intro eu c p x s o a2 g2
    exact ⟨(mainRun_interface_independent eu c p x s (Except.error e) a2 g g2 o).1,
      (mainRun_interface_independent eu c p x s (Except.error e) a2 g g2 o).2.2.2.1⟩

/-- Witness for C5: enumeration failure on a single unix spec returns
that spec byte-for-byte with the error as the only warning. -/
theorem enum_failure_warns_returns_unmodified_witness :
    getPublishableURL (Except.error ("route ip+net: netlinkrib: permission denied"))
        (fun _ u => u) [⟨"unix", "", "/listen.on.socket"⟩] =
      some (⟨"unix", "", "/listen.on.socket"⟩,
        ["route ip+net: netlinkrib: permission denied"]) :=
  (enum_failure_warns_returns_unmodified [⟨"unix", "", "/listen.on.socket"⟩]
      (fun _ u => u) "route ip+net: netlinkrib: permission denied"
      ⟨"unix", "", "/listen.on.socket"⟩ rfl).1

/-- Claim C7: the resolver output is advisory only: the URLs passed to
ListenAndServe never depend on the interface enumeration or on the
rewrite function, and on a startup where the log level parses, the list
is non-empty and no listener fails synchronously, the attempted binds
are exactly the full original configured listen list, unmodified. -/
theorem listeners_bind_original_specs :
    (∀ eu c p x s a1 g1 a2 g2 o,
      (mainRun eu c p x s a1 g1 o).listenAttempts =
        (mainRun eu c p x s a2 g2 o).listenAttempts) ∧
    (∀ (cfg : Config) p sv a g o,
      p cfg.logLevel = true →
      cfg.listenOn ≠ [] →
      (∀ i, i < cfg.listenOn.length → (o i).isSync = false) →
      (mainRun none (Except.ok cfg) p (Except.ok ()) (Except.ok sv) a g
          o).listenAttempts = cfg.listenOn) := by
  constructor
  · intro eu c p x s a1 g1 a2 g2 o
    exact (mainRun_interface_independent eu c p x s a1 a2 g1 g2 o).2.2.2.1
  · intro cfg p sv a g o hp hne hns
    obtain ⟨u, hu⟩ := defaultURL_isSome cfg.listenOn hne
    have hloop := listenLoopFrom_no_sync o cfg.listenOn 0 ?_
    · cases a with
      | error e => simp [mainRun, hp, getPublishableURL, hu, hloop.1]
      | ok addrs => simp [mainRun, hp, getPublishableURL, hu, hloop.1]
    · intro j hj
      simpa using hns j hj

/-- Witness for C7: on the sample two-URL configuration with healthy
listeners, the attempted binds are exactly the configured list. -/
theorem listeners_bind_original_specs_witness :
    (mainRun none (Except.ok sampleConfig) (fun _ => true) (Except.ok ())
        (Except.ok ("svid")) (Except.ok ["10.0.0.5"]) (fun _ u => u)
        (fun _ => ListenOutcome.ok)).listenAttempts = sampleConfig.listenOn :=
  listeners_bind_original_specs.2 sampleConfig (fun _ => true) "svid"
    (Except.ok ["10.0.0.5"]) (fun _ u => u) (fun _ => ListenOutcome.ok)
    rfl (by decide) (by decide)

/-- Claim C8: an error from the identity source (workloadapi x509
source) makes the run fatal with no listener-start attempt and without
the resolver ever being invoked, whatever the other oracles do. -/
theorem identity_failure_fatal_no_listeners
    (eu : Option String) (c : Except String Config) (p : String → Bool)
    (s : Except String String) (a : Except String (List String))
    (g : List String → URL → URL) (o : Nat → ListenOutcome) (e : String) :
    ((mainRun eu c p (Except.error e) s a g o).fatal).isSome = true ∧
    (mainRun eu c p (Except.error e) s a g o).listenAttempts = [] ∧
    (mainRun eu c p (Except.error e) s a g o).resolverArgs = none := by
  cases eu with
  | some e2 => simp [mainRun, fatalTrace]
  | none =>
    cases c with
    | error e2 => simp [mainRun, fatalTrace]
    | ok cfg =>
      cases hp : p cfg.logLevel with
      | false => simp [mainRun, hp, fatalTrace]
      | true => simp [mainRun, hp, fatalTrace]

/-- Witness for C8: a concrete identity acquisition failure yields a
fatal run with no listener attempts. -/
theorem identity_failure_fatal_no_listeners_witness :
    ((mainRun none (Except.ok sampleConfig) (fun _ => true)
        (Except.error ("workload endpoint socket uri not set"))
        (Except.ok ("svid")) (Except.ok []) (fun _ u => u)
        (fun _ => ListenOutcome.ok)).fatal).isSome = true :=
  (identity_failure_fatal_no_listeners none (Except.ok sampleConfig)
      (fun _ => true) (Except.ok "svid") (Except.ok []) (fun _ u => u)
      (fun _ => ListenOutcome.ok) "workload endpoint socket uri not set").1

/-- Counterexample to claim C9 as stated: with every startup stage
succeeding and the processed configuration carrying an empty listen
list, main reaches getPublishableURL with the empty list, where the
unconditional access listenOn[0] inside defaultURL is out of bounds (a
runtime panic): no validation between configuration processing and
resolution rejects the empty list. -/
theorem empty_listen_list_reaches_resolver :
    (mainRun none (Except.ok emptyListenConfig) (fun _ => true) (Except.ok ())
        (Except.ok ("svid")) (Except.ok []) (fun _ u => u)
        (fun _ => ListenOutcome.ok)).resolverArgs = some [] ∧
    (mainRun none (Except.ok emptyListenConfig) (fun _ => true) (Except.ok ())
        (Except.ok ("svid")) (Except.ok []) (fun _ u => u)
        (fun _ => ListenOutcome.ok)).panicked = true := by
  constructor <;> rfl

/-- Claim C9 as amended: the resolver receives exactly the configured
listen list, and its unconditional first-element access is in bounds
whenever that configured list is non-empty (as with the default
configuration); no separate emptiness validation exists, so
non-emptiness of the configuration itself is what keeps the access in
bounds. -/
theorem resolver_in_bounds_for_nonempty_config
    (eu : Option String) (c : Except String Config) (p : String → Bool)
    (x : Except String Unit) (s : Except String String)
    (a : Except String (List String)) (g : List String → URL → URL)
    (o : Nat → ListenOutcome) (cfg : Config)
    (hc : c = Except.ok cfg) (hne : cfg.listenOn ≠ []) :
    (mainRun eu c p x s a g o).panicked = false ∧
    (∀ l, (mainRun eu c p x s a g o).resolverArgs = some l →
      l = cfg.listenOn) := by
  subst hc
  cases eu with
  | some e => simp [mainRun, fatalTrace]
  | none =>
    cases hp : p cfg.logLevel with
    | false => simp [mainRun, hp, fatalTrace]
    | true =>
      cases x with
      | error e => simp [mainRun, hp, fatalTrace]
      | ok u =>
        cases s with
        | error e => simp [mainRun, hp, fatalTrace]
        | ok sv =>
          obtain ⟨v, hv⟩ := defaultURL_isSome cfg.listenOn hne
          cases a with
          | error e =>
            refine ⟨by simp [mainRun, hp, getPublishableURL, hv], ?_⟩
            intro l hl
            simp [mainRun, hp, getPublishableURL, hv] at hl
            exact hl.symm
          | ok addrs =>
            refine ⟨by simp [mainRun, hp, getPublishableURL, hv], ?_⟩
            intro l hl
            simp [mainRun, hp, getPublishableURL, hv] at hl
            exact hl.symm

/-- Witness for the amended C9: the sample non-empty configuration never
panics in the resolver. -/
theorem resolver_in_bounds_for_nonempty_config_witness :
    (mainRun none (Except.ok sampleConfig) (fun _ => true) (Except.ok ())
        (Except.ok ("svid")) (Except.ok ["10.0.0.5"]) (fun _ u => u)
        (fun _ => ListenOutcome.ok)).panicked = false :=
  (resolver_in_bounds_for_nonempty_config none (Except.ok sampleConfig)
      (fun _ => true) (Except.ok ()) (Except.ok "svid")
      (Except.ok ["10.0.0.5"]) (fun _ u => u) (fun _ => ListenOutcome.ok)
      sampleConfig rfl (by decide)).1
